import Mathlib

/-!
Shallow embedding of `src/d3d12/src/com.rs`: the reference-counted COM
smart pointer `ComPtr<T>` and the tagged-union inheritance chain generated
by `weak_com_inheritance_chain!`.

Addresses are modelled as `Nat`, with `0` playing the role of the null
pointer. Calls into the native layer (`AddRef`, `Release`,
`QueryInterface`) are recorded as an explicit list of `Effect`s, so that
"exactly one acquire / release" becomes a statement about that list.
`QueryInterface` itself is modelled as an oracle
`qi : Nat → Nat × Int` mapping the receiver's address to the written-back
result address and the returned HRESULT status (`0` = `S_OK`; the COM
contract makes the status non-zero whenever the result address is null).
-/

/-- A call into the native layer, recorded with the address it targets. -/
inductive Effect where
  | addRef (addr : Nat)
  | release (addr : Nat)
  | negotiate (addr : Nat)
  deriving DecidableEq

/-- `ComPtr<T>` (com.rs:18-19): `#[repr(transparent)]` wrapper around a
possibly-null pointer, modelled as its address. -/
structure ComPtr where
  ptr : Nat
  deriving DecidableEq

/-- `ComPtr::null` (com.rs:33-35). -/
def ComPtr.null : ComPtr := ⟨0⟩

/-- `ComPtr::is_null` (com.rs:52-54). -/
def ComPtr.is_null (p : ComPtr) : Bool := p.ptr == 0

/-- `ComPtr::from_reffed` (com.rs:28-31): `debug_assert!(!raw.is_null())`,
then stores the pointer; no `AddRef` is performed. -/
def ComPtr.from_reffed (raw : Nat) : ComPtr × List Effect :=
  (⟨raw⟩, [])

/-- `ComPtr::from_raw` (com.rs:45-49): `debug_assert!(!raw.is_null())`,
then calls `AddRef` on `raw` and stores it. -/
def ComPtr.from_raw (raw : Nat) : ComPtr × List Effect :=
  (⟨raw⟩, [Effect.addRef raw])

/-- `Clone for ComPtr` (com.rs:143-151): `debug_assert!(!self.is_null())`,
one `AddRef` on the stored address, then a bit-copy of the address. -/
def ComPtr.clone (p : ComPtr) : ComPtr × List Effect :=
  (⟨p.ptr⟩, [Effect.addRef p.ptr])

/-- First `Drop` impl (com.rs:153-161): `Release` only when the stored
pointer is non-null. -/
def ComPtr.dropChecked (p : ComPtr) : List Effect :=
  if p.ptr ≠ 0 then [Effect.release p.ptr] else []

/-- Second, duplicate `Drop` impl (com.rs:163-169): `Release`
unconditionally, with no null check. -/
def ComPtr.dropUnconditional (p : ComPtr) : List Effect :=
  [Effect.release p.ptr]

/-- Strict `ComPtr::cast` (com.rs:115-125): `debug_assert!(!self.is_null())`;
starts from `ComPtr::<U>::null()`, lets `QueryInterface` write the result
address through `mut_void`, and returns the (possibly still null) handle
together with the raw HRESULT. -/
def ComPtr.castStrict (qi : Nat → Nat × Int) (p : ComPtr) :
    (ComPtr × Int) × List Effect :=
  ((⟨(qi p.ptr).1⟩, (qi p.ptr).2), [Effect.negotiate p.ptr])

/-- Tolerant `ComPtr::cast` (com.rs:128-140): no null check on `self`;
always calls `QueryInterface`, then wraps the written-back address with
`from_reffed` iff it is non-null: `(!obj.is_null()).then(...)`. -/
def ComPtr.castTolerant (qi : Nat → Nat × Int) (p : ComPtr) :
    (Option ComPtr × Int) × List Effect :=
  ((if (qi p.ptr).1 ≠ 0 then some (ComPtr.from_reffed (qi p.ptr).1).1 else none,
      (qi p.ptr).2),
    [Effect.negotiate p.ptr])

/-- `PartialEq for ComPtr` (com.rs:198-202): `self.0 == other.0`. -/
def ComPtr.beq (a b : ComPtr) : Bool := a.ptr == b.ptr

/-- `PartialEq<*mut T> for ComPtr` (com.rs:192-196): `self.0 == *other`. -/
def ComPtr.eqRaw (a : ComPtr) (other : Nat) : Bool := a.ptr == other

/-- `Hash for ComPtr` (com.rs:204-208): hashes exactly the stored address;
the hasher is abstracted as a function on addresses. -/
def ComPtr.hashWith (h : Nat → Nat) (a : ComPtr) : Nat := h a.ptr

/-- Net contribution of one native call to the reference count held at
address `a`. -/
def Effect.deltaAt (a : Nat) : Effect → Int
  | .addRef b => if b = a then 1 else 0
  | .release b => if b = a then -1 else 0
  | .negotiate _ => 0

/-- Net change of the native reference count at address `a` caused by a
sequence of recorded calls. -/
def netCount (es : List Effect) (a : Nat) : Int :=
  (es.map (Effect.deltaAt a)).sum

/-!
The `weak_com_inheritance_chain!` macro (com.rs:234-356). For an ordered
variant list `V1 .. Vn` it generates an enum with one `ComPtr` per
variant; a chain value is modelled as the index of the variant it holds
(`variant : Fin n`) together with that variant's handle. The generated
accessors dispatch by matching the held variant against the groups
"previous variants / this variant / next variants" of the requested one.
-/

/-- A value of the enum generated by `weak_com_inheritance_chain!` for a
chain of `n` variants: the held variant's discriminant plus its handle. -/
structure ComChain (n : Nat) where
  variant : Fin n
  handle : ComPtr

/-- The `std::mem::transmute` of a `&ComPtr<NextType>` to a
`&ComPtr<Type>` (com.rs:333, 350): `ComPtr` is `#[repr(transparent)]`, so
the reinterpretation preserves the stored address. -/
def transmuteHandle (h : ComPtr) : ComPtr := ⟨h.ptr⟩

/-- The generated `from_name` constructor (com.rs:319-321): wraps the
handle directly as the named variant. -/
def ComChain.fromVariant {n : Nat} (i : Fin n) (value : ComPtr) : ComChain n :=
  ⟨i, value⟩

/-- The generated `as_name` accessor (com.rs:324-337): previous variants
(held index `< i`) give `None`; the variant itself gives `Some` of its
handle; later variants give `Some` of the transmuted handle. -/
def ComChain.asVariant {n : Nat} (c : ComChain n) (i : Fin n) : Option ComPtr :=
  if c.variant < i then none
  else if c.variant = i then some c.handle
  else some (transmuteHandle c.handle)

/-- The generated `unwrap_name` accessor (com.rs:341-354): like
`as_name`, but an earlier held variant panics with
`"Tried to unwrap a <held> as a <requested>"`; the panic is modelled as
`Except.error` carrying that message. `names` gives each variant's
identifier as written in the macro invocation. -/
def ComChain.unwrapVariant {n : Nat} (names : Nat → String) (c : ComChain n)
    (i : Fin n) : Except String ComPtr :=
  if c.variant < i then
    Except.error
      ("Tried to unwrap a " ++ names c.variant.val ++ " as a " ++ names i.val)
  else if c.variant = i then Except.ok c.handle
  else Except.ok (transmuteHandle c.handle)

/-- The generated `Deref` impl (com.rs:265-270): dereferencing calls the
first variant's `unwrap_name` accessor. -/
def ComChain.derefBase {n : Nat} (names : Nat → String) (c : ComChain (n + 1)) :
    Except String ComPtr :=
  c.unwrapVariant names ⟨0, Nat.succ_pos n⟩

/-- The oracle of a `QueryInterface` that reports the target interface as
unsupported: null result address, `E_NOINTERFACE`-style failing status. -/
def qiAbsent : Nat → Nat × Int := fun _ => (0, -1)

/-- The oracle of a `QueryInterface` that succeeds on every address,
handing back a fresh (shifted) address with `S_OK`. -/
def qiPresent : Nat → Nat × Int := fun a => (a + 1, 0)

/-- Variant identifiers `V1, V2, V3, ...` as written in a macro
invocation, for exercising the generated accessors on concrete chains. -/
def vnames : Nat → String := fun k => "V" ++ toString (k + 1)

/-- `transmute` on a `#[repr(transparent)]` handle is the identity. -/
theorem transmuteHandle_eq (h : ComPtr) : transmuteHandle h = h := rfl


/-- Base-variant `unwrap` never reaches a panic arm: no variant precedes
the first, so the held variant is never `<` index 0. -/
theorem unwrap_base_ok {n : Nat} (names : Nat → String) (c : ComChain (n + 1)) :
    ComChain.unwrapVariant names c ⟨0, Nat.succ_pos n⟩ = Except.ok c.handle := by
  have h0 : ¬ c.variant < ⟨0, Nat.succ_pos n⟩ := by
    intro h
    exact absurd (Fin.lt_def.mp h) (Nat.not_lt_zero _)
  unfold ComChain.unwrapVariant
  by_cases heq : c.variant = ⟨0, Nat.succ_pos n⟩ <;> simp [h0, heq, transmuteHandle_eq]

/-- C1: the claim states that dropping a null handle performs no release.
The source carries two conflicting `Drop` impls: the null-checked one
(com.rs:153-161) indeed performs no native call on the null handle, but
the duplicate unconditional one (com.rs:163-169) still performs one
`Release` on address 0, contradicting the claim (and the spec, which
declares that duplicate defective). -/
theorem C1_null_drop_discrepancy :
    ComPtr.dropChecked ComPtr.null = [] ∧
    ComPtr.dropUnconditional ComPtr.null = [Effect.release 0] := by
  constructor
  · simp [ComPtr.dropChecked, ComPtr.null]
  · rfl

/-- C2: for a non-null handle whose `QueryInterface` reports the target
interface as unsupported (null written-back address, failing status), the
tolerant cast returns `(none, status)`, the strict cast returns the null
handle with that same non-success status, and the tolerant `Option` is
present iff the written-back address is non-null. -/
theorem C2_cast_unsupported (qi : Nat → Nat × Int) (p : ComPtr)
    (hp : p.ptr ≠ 0) (hres : (qi p.ptr).1 = 0) (hhr : (qi p.ptr).2 ≠ 0) :
    (ComPtr.castTolerant qi p).1 = (none, (qi p.ptr).2) ∧
    (ComPtr.castStrict qi p).1 = (ComPtr.null, (qi p.ptr).2) ∧
    (ComPtr.castStrict qi p).1.2 ≠ 0 ∧
    ((ComPtr.castTolerant qi p).1.1.isSome = true ↔ (qi p.ptr).1 ≠ 0) := by
  unfold ComPtr.castTolerant ComPtr.castStrict ComPtr.null
  simp [hres, hhr]

/-- C2 witness: a concrete non-null handle against the always-unsupported
oracle. -/
theorem C2_cast_unsupported_witness :
    (ComPtr.castTolerant qiAbsent ⟨1⟩).1 = (none, (qiAbsent 1).2) ∧
    (ComPtr.castStrict qiAbsent ⟨1⟩).1 = (ComPtr.null, (qiAbsent 1).2) := by
  have h := C2_cast_unsupported qiAbsent ⟨1⟩ (by decide) (by decide) (by decide)
  exact ⟨h.1, h.2.1⟩

/-- C5: `from_reffed` stores the given non-null address with no native
call at all, while `from_raw` performs exactly one `AddRef` on the
address and stores it. -/
theorem C5_construction (raw : Nat) (hraw : raw ≠ 0) :
    ComPtr.from_reffed raw = (⟨raw⟩, []) ∧
    ComPtr.from_raw raw = (⟨raw⟩, [Effect.addRef raw]) :=
  ⟨rfl, rfl⟩

/-- C5 witness: the two constructors at the concrete address 7. -/
theorem C5_construction_witness :
    ComPtr.from_reffed 7 = (⟨7⟩, []) ∧
    ComPtr.from_raw 7 = (⟨7⟩, [Effect.addRef 7]) :=
  C5_construction 7 (by decide)

/-- C6: clone-then-drop of a non-null handle is a net no-op on the native
reference count: the clone performs exactly one `AddRef`, dropping the
clone performs exactly one `Release` on the same address, their net
effect at that address is 0, and the original handle is untouched and
still non-null. -/
theorem C6_clone_drop_roundtrip (p : ComPtr) (hp : p.ptr ≠ 0) :
    (ComPtr.clone p).2 = [Effect.addRef p.ptr] ∧
    ComPtr.dropChecked (ComPtr.clone p).1 = [Effect.release p.ptr] ∧
    netCount ((ComPtr.clone p).2 ++ ComPtr.dropChecked (ComPtr.clone p).1) p.ptr = 0 ∧
    (ComPtr.clone p).1 = p ∧
    ComPtr.is_null p = false := by
  refine ⟨rfl, ?_, ?_, rfl, ?_⟩
  · simp [ComPtr.clone, ComPtr.dropChecked, hp]
  · simp [ComPtr.clone, ComPtr.dropChecked, hp, netCount, Effect.deltaAt]
  · simp [ComPtr.is_null, hp]

/-- C6 witness: the round trip at the concrete address 5. -/
theorem C6_clone_drop_roundtrip_witness :
    (ComPtr.clone ⟨5⟩).2 = [Effect.addRef 5] ∧
    netCount ((ComPtr.clone ⟨5⟩).2 ++ ComPtr.dropChecked (ComPtr.clone ⟨5⟩).1) 5 = 0 := by
  have h := C6_clone_drop_roundtrip ⟨5⟩ (by decide)
  exact ⟨h.1, h.2.2.1⟩

/-- C8: handle equality holds iff the stored addresses coincide (hence it
is reflexive and symmetric, and holds for two handles built independently
on the same address), a handle equals a raw pointer exactly when the
stored address equals it, and hashing depends only on the stored address,
so equal handles hash equally. -/
theorem C8_eq_hash (a b : ComPtr) (r : Nat) (h : Nat → Nat) :
    (ComPtr.beq a b = true ↔ a.ptr = b.ptr) ∧
    ComPtr.beq a a = true ∧
    ComPtr.beq a b = ComPtr.beq b a ∧
    ComPtr.beq (ComPtr.from_raw r).1 (ComPtr.from_reffed r).1 = true ∧
    (ComPtr.eqRaw a r = true ↔ a.ptr = r) ∧
    (ComPtr.beq a b = true → ComPtr.hashWith h a = ComPtr.hashWith h b) := by
  refine ⟨by simp [ComPtr.beq], by simp [ComPtr.beq], ?_,
    by simp [ComPtr.beq, ComPtr.from_raw, ComPtr.from_reffed],
    by simp [ComPtr.eqRaw], ?_⟩
  · by_cases hab : a.ptr = b.ptr
    · simp [ComPtr.beq, hab]
    · simp [ComPtr.beq, hab, Ne.symm hab]
  · intro hab
    have : a.ptr = b.ptr := by simpa [ComPtr.beq] using hab
    simp [ComPtr.hashWith, this]

/-- C8 witness: two handles on address 3 compare equal and hash equally
under a concrete hasher. -/
theorem C8_eq_hash_witness :
    ComPtr.beq ⟨3⟩ ⟨3⟩ = true ∧
    ComPtr.hashWith Nat.succ ⟨3⟩ = ComPtr.hashWith Nat.succ ⟨3⟩ := by
  have h := C8_eq_hash ⟨3⟩ ⟨3⟩ 3 Nat.succ
  exact ⟨h.2.1, h.2.2.2.2.2 h.2.1⟩

/-- C3: the generated fallible downcast accessor for variant `i` on a
value holding variant `j` is present iff `j ≥ i`, is absent when `j < i`,
and when present yields the held handle viewed through the (address-
preserving) transmute — all computed from the discriminant alone, the
accessor taking no negotiation oracle. -/
theorem C3_fallible_downcast {n : Nat} (c : ComChain n) (i : Fin n) :
    ((ComChain.asVariant c i).isSome = true ↔ i ≤ c.variant) ∧
    (c.variant < i → ComChain.asVariant c i = none) ∧
    (i ≤ c.variant → ComChain.asVariant c i = some c.handle) := by
  unfold ComChain.asVariant
  by_cases hlt : c.variant < i
  · simp [hlt, not_le.mpr hlt]
  · have hle : i ≤ c.variant := not_lt.mp hlt
    by_cases heq : c.variant = i <;> simp [hlt, heq, hle, transmuteHandle_eq]

/-- C3 witness: on a 3-variant chain, a value held at variant 2 downcasts
to variant 0, and a value held at variant 0 does not downcast to
variant 2. -/
theorem C3_fallible_downcast_witness :
    ComChain.asVariant (⟨2, ⟨7⟩⟩ : ComChain 3) 0 = some (⟨7⟩ : ComPtr) ∧
    ComChain.asVariant (⟨0, ⟨7⟩⟩ : ComChain 3) 2 = none := by
  have hhigh := C3_fallible_downcast (⟨2, ⟨7⟩⟩ : ComChain 3) 0
  have hlow := C3_fallible_downcast (⟨0, ⟨7⟩⟩ : ComChain 3) 2
  exact ⟨hhigh.2.2 (by decide), hlow.2.1 (by decide)⟩

/-- C4: the generated panicking downcast accessor agrees with the
fallible one whenever the held variant is at least the requested one, and
otherwise fails fatally with a message naming both the held and the
requested variant. -/
theorem C4_panicking_downcast {n : Nat} (names : Nat → String) (c : ComChain n)
    (i : Fin n) :
    (i ≤ c.variant →
      ComChain.unwrapVariant names c i = Except.ok c.handle ∧
      ComChain.asVariant c i = some c.handle) ∧
    (c.variant < i →
      ComChain.unwrapVariant names c i =
        Except.error
          ("Tried to unwrap a " ++ names c.variant.val ++ " as a " ++ names i.val)) := by
  unfold ComChain.unwrapVariant ComChain.asVariant
  by_cases hlt : c.variant < i
  · simp [hlt, not_le.mpr hlt]
  · by_cases heq : c.variant = i <;> simp [hlt, heq, transmuteHandle_eq]

/-- C4 witness: on a 3-variant chain named `V1, V2, V3`, unwrapping a
value held at `V1` as `V2` fails with the message naming both, while a
value held at `V3` unwraps as `V2` successfully. -/
theorem C4_panicking_downcast_witness :
    ComChain.unwrapVariant vnames (⟨0, ⟨7⟩⟩ : ComChain 3) 1 =
      Except.error ("Tried to unwrap a V1 as a V2") ∧
    ComChain.unwrapVariant vnames (⟨2, ⟨7⟩⟩ : ComChain 3) 1 =
      Except.ok (⟨7⟩ : ComPtr) := by
  have ha := C4_panicking_downcast vnames (⟨0, ⟨7⟩⟩ : ComChain 3) 1
  have hb := C4_panicking_downcast vnames (⟨2, ⟨7⟩⟩ : ComChain 3) 1
  refine ⟨?_, (hb.1 (by decide)).1⟩
  have herr := ha.2 (by decide)
  rw [herr]
  rfl

/-- C7: dereferencing a chain value goes through the base (first)
variant's unwrap and yields the held handle, and its address agrees with
the base variant's fallible downcast accessor on the same value. -/
theorem C7_deref_base {n : Nat} (names : Nat → String) (c : ComChain (n + 1)) :
    ComChain.derefBase names c = Except.ok c.handle ∧
    ComChain.asVariant c ⟨0, Nat.succ_pos n⟩ = some c.handle ∧
    (ComChain.derefBase names c).toOption.map ComPtr.ptr =
      (ComChain.asVariant c ⟨0, Nat.succ_pos n⟩).map ComPtr.ptr := by
  have hbase := unwrap_base_ok names c
  have h0 : ¬ c.variant < ⟨0, Nat.succ_pos n⟩ := by
    intro h
    exact absurd (Fin.lt_def.mp h) (Nat.not_lt_zero _)
  have has : ComChain.asVariant c ⟨0, Nat.succ_pos n⟩ = some c.handle := by
    unfold ComChain.asVariant
    by_cases heq : c.variant = ⟨0, Nat.succ_pos n⟩ <;>
      simp [h0, heq, transmuteHandle_eq]
  refine ⟨by simpa [ComChain.derefBase] using hbase, has, ?_⟩
  rw [ComChain.derefBase, hbase, has]
  rfl

/-- C9: the tolerant cast has no non-null precondition: for every handle,
the null one included, it performs exactly one negotiation call on the
stored address and returns the status verbatim, with the `Option` present
iff the call wrote back a non-null object. -/
theorem C9_tolerant_cast_total (qi : Nat → Nat × Int) (p : ComPtr) :
    (ComPtr.castTolerant qi p).2 = [Effect.negotiate p.ptr] ∧
    ((ComPtr.castTolerant qi p).1.1.isSome = true ↔ (qi p.ptr).1 ≠ 0) ∧
    (ComPtr.castTolerant qi p).1.2 = (qi p.ptr).2 ∧
    (ComPtr.castTolerant qi ComPtr.null).2 = [Effect.negotiate 0] := by
  refine ⟨rfl, ?_, rfl, rfl⟩
  unfold ComPtr.castTolerant
  by_cases h : (qi p.ptr).1 = 0 <;> simp [h]

/-- C10: the base (first) variant's unwrap accessor never panics — no
variant precedes the first, so its panic arms are vacuous — and hence the
generated `Deref`, which calls it, is total and yields the held handle. -/
theorem C10_base_unwrap_total {n : Nat} (names : Nat → String)
    (c : ComChain (n + 1)) :
    ComChain.unwrapVariant names c ⟨0, Nat.succ_pos n⟩ = Except.ok c.handle ∧
    ComChain.derefBase names c = Except.ok c.handle := by
  have hbase := unwrap_base_ok names c
  exact ⟨hbase, by simpa [ComChain.derefBase] using hbase⟩
